import Mathlib

/-!
Shallow embedding of `src/python/src/variable_inspector/inspector.py`
(the kernel-side variable inspector) and proofs about its claims.

Modelling conventions:
* A Python object is a `PyObj`: its runtime type name and declaring module,
  the behaviour of `repr()` / `str()` / `len()` on it, the results of the
  attribute probes the extractors perform (an `Option` field is the value
  `_safe_attr` observes: `none` means the attribute is missing or accessing
  it raises, so `_safe_attr` returns its default), and a `kind` recording
  which `isinstance` checks of the dispatcher hold, with element payloads.
* Raising Python code is modelled in the `Option` monad: `none` = the call
  raised an exception that propagates to the caller.
* Python string slicing `s[:k]` (which drops from the right for negative
  `k`) is modelled by `pySliceTo`; integer arguments that can be negative
  are `Int`.
* An inspection record (a Python dict with string keys, built by insertion)
  is an association list `Record` in insertion order; `FieldV` covers the
  JSON-compatible value shapes the inspector emits.
-/

namespace VariableInspector

set_option maxRecDepth 100000

/-- Characters of a string, used to model Python string slicing. -/
def strTake (s : String) (n : Nat) : String := ⟨s.data.take n⟩

/-- Python slice `s[:k]`: a prefix for `k ≥ 0`, dropping `|k|` characters
from the right for negative `k` (empty when `|k| ≥ len`). -/
def pySliceTo (s : String) (k : Int) : String :=
  if 0 ≤ k then strTake s k.toNat else strTake s (s.data.length - k.natAbs)

/-- `s.startswith(pre)`, computed on the character lists (the library
`String.startsWith` does not reduce inside the kernel). -/
def pyStartsWith (s pre : String) : Bool := pre.data.isPrefixOf s.data

/-- Behaviour of an object's `__repr__` (or `__str__`): returns a string,
returns a non-string (the builtin `repr`/`str` then raises `TypeError`),
or raises. -/
inductive ReprB where
  | ok (s : String)
  | nonString
  | raises
deriving DecidableEq, Repr

/-- Behaviour of an object's `__len__`: returns an integer (possibly
negative, in which case the builtin `len` raises `ValueError`), raises,
or is missing (the builtin `len` raises `TypeError`). -/
inductive LenB where
  | val (n : Int)
  | raises
  | missing
deriving DecidableEq, Repr

/-- What `_safe_attr(tree.dataset, ...)` probes observe on a DataTree's
dataset. -/
structure DSData where
  dataVars : Option (List (String × Option String))
  sizes    : Option (List (String × Int))
deriving DecidableEq, Repr

/-- What `_inspect_pandas_dataframe` observes on `obj.index`. -/
structure IndexData where
  typeName : String
  dtypeStr : String
  nlevels  : Option Int
  names    : Option (List (Option String))
deriving DecidableEq, Repr

/-- The per-object data every extractor reads: identity, dunder behaviours
and the results of the attribute probes.  For each attribute field,
`none` models "missing or raises", so `_safe_attr` yields its default.
Column/key labels reached only through libraries (pandas/polars/xarray
names) are modelled as well-behaved strings; dict keys and values are
full `PyObj`s (see `PyKindT`). -/
structure PyBase where
  typeName      : String
  module        : String
  reprB         : ReprB
  strB          : ReprB
  lenB          : LenB
  isModule      : Bool
  shape         : Option (List Int)
  columns       : Option (List String)
  dtypes        : Option (List (String × Option String))
  schemaA       : Option (List (String × Option String))
  collectSchema : Option (List (String × Option String))
  indexA        : Option IndexData
  memoryBytes   : Option Int
  estimatedSize : Option Int
  dtypeA        : Option String
  ndimA         : Option Int
  nbytesA       : Option Int
  nameA         : Option String
  sizesA        : Option (List (String × Int))
  dataVarsA     : Option (List (String × Option String))
  coordsA       : Option (List String)
  childrenA     : Option (List String)
  dimsA         : Option (List String)
  datasetA      : Option DSData
  subtreeTotal  : Option Nat
deriving DecidableEq, Repr

/-- A `PyBase` with no attributes and failing dunders; concrete objects
are built by structure update. -/
def noneBase : PyBase where
  typeName := ""
  module := ""
  reprB := .raises
  strB := .raises
  lenB := .missing
  isModule := false
  shape := none
  columns := none
  dtypes := none
  schemaA := none
  collectSchema := none
  indexA := none
  memoryBytes := none
  estimatedSize := none
  dtypeA := none
  ndimA := none
  nbytesA := none
  nameA := none
  sizesA := none
  dataVarsA := none
  coordsA := none
  childrenA := none
  dimsA := none
  datasetA := none
  subtreeTotal := none

/-- Which of the sequence builtins the object is an instance of. -/
inductive SeqTy where
  | listTy
  | tupleTy
  | setTy
  | frozensetTy
deriving DecidableEq, Repr

/-- The `isinstance` classification the dispatcher relies on, with element
payloads.  `mappingABC` is an instance of `collections.abc.Mapping` that is
*not* a `dict`; `callableK` abbreviates the source's
`callable(obj) and isinstance(obj, (FunctionType, BuiltinFunctionType, type))`;
`plain` matches none of the builtin checks. -/
inductive PyKindT (α : Type) where
  | scalar
  | dictK (entries : List (α × α))
  | seqK (st : SeqTy) (elems : List α)
  | mappingABC
  | callableK
  | plain

/-- A Python object: its base data plus its `isinstance` classification. -/
inductive PyObj where
  | mk (base : PyBase) (kind : PyKindT PyObj)

def PyObj.base : PyObj → PyBase
  | .mk b _ => b

def PyObj.kind : PyObj → PyKindT PyObj
  | .mk _ k => k

/-- `type(obj).__name__`. -/
def type_name (o : PyObj) : String := o.base.typeName

/-- `_module(obj)`: `getattr(type(obj), "__module__", "") or ""`. -/
def moduleOf (o : PyObj) : String := o.base.module

/-- The builtin `len(obj)`: `none` when it raises (no `__len__`, `__len__`
raises, or `__len__` returns a negative integer). -/
def pyLen (o : PyObj) : Option Nat :=
  match o.base.lenB with
  | .val n => if n < 0 then none else some n.toNat
  | .raises => none
  | .missing => none

/-- `_safe_len(obj)`: `len(obj)` with every failure converted to `None`. -/
def safe_len (o : PyObj) : Option Nat := pyLen o

/-- The builtin `repr(obj)`: `none` when it raises (including a
`__repr__` that returns a non-string). -/
def pyRepr (o : PyObj) : Option String :=
  match o.base.reprB with
  | .ok s => some s
  | .nonString => none
  | .raises => none

/-- The builtin `str(obj)`: `none` when it raises.  For objects without a
`__str__`, Python falls back to `__repr__`; the instantiation of `strB`
carries that fallback. -/
def pyStr (o : PyObj) : Option String :=
  match o.base.strB with
  | .ok s => some s
  | .nonString => none
  | .raises => none

/-- `isinstance(obj, (dict, list, tuple, set, frozenset))`. -/
def isBulkContainer (o : PyObj) : Bool :=
  match o.kind with
  | .dictK _ => true
  | .seqK _ _ => true
  | _ => false

/-- `_truncate_name(name, max_len)` for a name that is already a string
(so the source's `str(name)` is the identity). -/
def truncate_name (nm : String) (maxLen : Option Int) : String :=
  match maxLen with
  | none => nm
  | some m => if (nm.length : Int) ≤ m then nm else pySliceTo nm (m - 3) ++ "..."

/-- `_truncate_name(k, max_len)` for an arbitrary object `k`: the source
calls `str(k)`, which may raise (`none`). -/
def truncate_name_obj (k : PyObj) (maxLen : Option Int) : Option String :=
  match maxLen with
  | none => pyStr k
  | some m =>
    (pyStr k).map fun s =>
      if (s.length : Int) ≤ m then s else pySliceTo s (m - 3) ++ "..."

/-- `_safe_repr(obj, limit)`. -/
def safe_repr (o : PyObj) (limit : Int) : String :=
  let bail :=
    if isBulkContainer o then
      match pyLen o with
      | some n => if n > 20 then
          some ("<" ++ type_name o ++ " with " ++ toString n ++ " items>")
        else none
      | none => none
    else none
  match bail with
  | some s => s
  | none =>
    match pyRepr o with
    | none => "<" ++ type_name o ++ ">"
    | some r =>
      if (r.length : Int) > limit then pySliceTo r (limit - 3) ++ "..." else r

/-- The JSON-compatible value shapes that an inspection record's fields
take: strings, integers, booleans, `None`, lists of strings / ints /
optional strings, `{name, dtype}` column lists, `{dim: size}` dicts,
`{name, dtype?}` variable lists, and string-to-string preview dicts. -/
inductive FieldV where
  | s (v : String)
  | i (v : Int)
  | b (v : Bool)
  | null
  | strList (vs : List String)
  | intList (vs : List Int)
  | optStrList (vs : List (Option String))
  | cols (cs : List (String × String))
  | dims (ds : List (String × Int))
  | varList (vs : List (String × Option String))
  | preview (ps : List (String × String))
deriving DecidableEq, Repr

/-- An inspection record: a Python dict with string keys, kept in
insertion order. -/
abbrev Record := List (String × FieldV)

/-- `record.get(key)` on a record without duplicate keys. -/
def Record.get (r : Record) (k : String) : Option FieldV :=
  (List.lookup k r)

/-- A field taken to be `n` when the Python value is the integer `n`,
and `None` (null) otherwise — for `_safe_attr` results stored directly. -/
def optIntF : Option Int → FieldV
  | some n => .i n
  | none => .null

/-- A field holding `_safe_len`'s result: the length, or `None`. -/
def optNatF : Option Nat → FieldV
  | some n => .i n
  | none => .null

/-- Python's `tuple` display: `()`, `(3,)`, `(3, 4)`. -/
def tupleStr : List Int → String
  | [] => "()"
  | [x] => "(" ++ toString x ++ ",)"
  | xs => "(" ++ String.intercalate ", " (xs.map toString) ++ ")"

/-- `_inspect_pandas_dataframe(name, obj, max_items, max_name_length)`. -/
def inspect_pandas_dataframe (name : String) (o : PyObj) (maxItems : Nat)
    (mnl : Option Int) : Record :=
  let shape := o.base.shape.getD []
  let cols := (o.base.columns.getD []).take maxItems
  let colInfo := cols.map fun c =>
    let dt := match o.base.dtypes with
      | none => "?"
      | some dts =>
        match List.lookup c dts with
        | some (some d) => d
        | _ => "?"
    (truncate_name c mnl, dt)
  let totalCols : Int :=
    if shape.length > 1 then shape.getD 1 0 else (cols.length : Int)
  let result : Record :=
    [("name", .s name), ("type", .s "DataFrame"),
     ("shape", .intList shape), ("columns", .cols colInfo)]
  let result :=
    if totalCols > (maxItems : Int) then
      result ++ [("columns_truncated", .i totalCols)]
    else result
  let result := match o.base.indexA with
    | none => result
    | some idx =>
      let r := result ++ [("index_dtype", .s idx.dtypeStr)]
      if idx.typeName == "MultiIndex" then
        let r := r ++ [("index_type", FieldV.s "MultiIndex"),
                       ("index_nlevels", optIntF idx.nlevels)]
        match idx.names with
        | none => r
        | some nms => r ++ [("index_names", .optStrList nms)]
      else r
  match o.base.memoryBytes with
  | none => result
  | some m => result ++ [("memory_bytes", .i m)]

/-- `_inspect_pandas_series(name, obj)`. -/
def inspect_pandas_series (name : String) (o : PyObj) : Record :=
  let result : Record :=
    [("name", .s name), ("type", .s "Series"),
     ("shape", .intList (o.base.shape.getD [])),
     ("dtype", .s (o.base.dtypeA.getD "?"))]
  let result := match o.base.nameA with
    | none => result
    | some sn => result ++ [("series_name", .s sn)]
  match o.base.memoryBytes with
  | none => result
  | some m => result ++ [("memory_bytes", .i m)]

/-- `_inspect_polars_dataframe(name, obj, max_items, max_name_length)`. -/
def inspect_polars_dataframe (name : String) (o : PyObj) (maxItems : Nat)
    (mnl : Option Int) : Record :=
  let shape := o.base.shape.getD []
  let cols := (o.base.columns.getD []).take maxItems
  let colInfo := cols.map fun c =>
    let dt := match o.base.schemaA with
      | none => "?"
      | some sch =>
        match List.lookup c sch with
        | some (some d) => d
        | _ => "?"
    (truncate_name c mnl, dt)
  let totalCols : Int :=
    if shape.length > 1 then shape.getD 1 0 else (cols.length : Int)
  let result : Record :=
    [("name", .s name), ("type", .s "polars.DataFrame"),
     ("shape", .intList shape), ("columns", .cols colInfo)]
  let result :=
    if totalCols > (maxItems : Int) then
      result ++ [("columns_truncated", .i totalCols)]
    else result
  match o.base.estimatedSize with
  | none => result
  | some m => result ++ [("estimated_size_bytes", .i m)]

/-- `_inspect_polars_lazyframe(name, obj, max_items, max_name_length)`.
`collectSchema = none` models `obj.collect_schema()` raising, which the
source's `except` turns into the degraded three-field record; an entry
`(n, none)` models `str(schema[n])` raising, so that column is skipped by
the per-column `suppress`. -/
def inspect_polars_lazyframe (name : String) (o : PyObj) (maxItems : Nat)
    (mnl : Option Int) : Record :=
  match o.base.collectSchema with
  | none => [("name", .s name), ("type", .s "polars.LazyFrame"), ("lazy", .b true)]
  | some sch =>
    let names := (sch.map Prod.fst).take maxItems
    let colInfo := names.filterMap fun n =>
      match List.lookup n sch with
      | some (some d) => some (truncate_name n mnl, d)
      | _ => none
    let total := sch.length
    let result : Record :=
      [("name", .s name), ("type", .s "polars.LazyFrame"),
       ("columns", .cols colInfo), ("lazy", .b true)]
    if total > maxItems then result ++ [("columns_truncated", .i (total : Int))]
    else result

/-- `_inspect_polars_series(name, obj)`. -/
def inspect_polars_series (name : String) (o : PyObj) : Record :=
  let result : Record :=
    [("name", .s name), ("type", .s "polars.Series"),
     ("shape", .intList (o.base.shape.getD [])),
     ("dtype", .s (o.base.dtypeA.getD "?"))]
  match o.base.nameA with
  | none => result
  | some sn => result ++ [("series_name", .s sn)]

/-- `_inspect_numpy(name, obj)`. -/
def inspect_numpy (name : String) (o : PyObj) : Record :=
  [("name", .s name), ("type", .s "ndarray"),
   ("shape", .intList (o.base.shape.getD [])),
   ("dtype", .s (o.base.dtypeA.getD "?")),
   ("ndim", optIntF o.base.ndimA),
   ("nbytes", optIntF o.base.nbytesA)]

/-- `_inspect_xarray_dataset(name, obj, max_items, max_name_length)`.
A `dataVarsA` entry `(n, some d)` models a variable whose dtype lookup
succeeded with `str(dtype) = d`; `(n, none)` one where the lookup failed
or the dtype was `None`, so the `dtype` key is omitted for it. -/
def inspect_xarray_dataset (name : String) (o : PyObj) (maxItems : Nat)
    (mnl : Option Int) : Record :=
  let result : Record := [("name", .s name), ("type", .s "xarray.Dataset")]
  let result := match o.base.sizesA with
    | none => result
    | some sz => result ++ [("dims", .dims (sz.take maxItems))]
  let result := match o.base.dataVarsA with
    | none => result
    | some dvs =>
      let varList := (dvs.take maxItems).map fun p =>
        (truncate_name p.1 mnl, p.2)
      let r := result ++ [("data_vars", .varList varList)]
      let total := dvs.length
      if total > maxItems then r ++ [("data_vars_truncated", .i (total : Int))]
      else r
  match o.base.coordsA with
  | none => result
  | some cs =>
    result ++ [("coords", .strList ((cs.take maxItems).map
      fun c => truncate_name c mnl))]

/-- `_inspect_xarray_dataarray(name, obj)`. -/
def inspect_xarray_dataarray (name : String) (o : PyObj) : Record :=
  let result : Record := [("name", .s name), ("type", .s "xarray.DataArray")]
  let result := match o.base.dimsA, o.base.shape with
    | some ds, some shp => result ++ [("dims", .dims (ds.zip shp))]
    | _, _ => result
  match o.base.dtypeA with
  | none => result
  | some d => result ++ [("dtype", .s d)]

/-- `_inspect_xarray_datatree(name, obj, max_items, max_name_length)`.
Note: the source caps the dataset's `data_vars` at `max_items` here but
— unlike `_inspect_xarray_dataset` — never sets `data_vars_truncated`. -/
def inspect_xarray_datatree (name : String) (o : PyObj) (maxItems : Nat)
    (mnl : Option Int) : Record :=
  let result : Record := [("name", .s name), ("type", .s "xarray.DataTree")]
  let result := match o.base.childrenA with
    | none => result
    | some ch =>
      if ch.isEmpty then result
      else
        let r := result ++ [("children", .strList ((ch.take maxItems).map
          fun c => truncate_name c mnl))]
        if ch.length > maxItems then
          r ++ [("children_truncated", .i (ch.length : Int))]
        else r
  let result := match o.base.datasetA with
    | none => result
    | some ds =>
      let r := match ds.dataVars with
        | none => result
        | some dvs =>
          result ++ [("data_vars", .varList ((dvs.take maxItems).map
            fun p => (truncate_name p.1 mnl, p.2)))]
      match ds.sizes with
      | none => r
      | some sz => r ++ [("dims", .dims (sz.take maxItems))]
  match o.base.subtreeTotal with
  | none => result
  | some t => result ++ [("total_nodes", .i (t : Int))]

/-- One `values_preview` entry of `_inspect_dict` for key `k` with value
`v`: the whole body is inside `contextlib.suppress`, so any raise (here:
`str(k)`) skips the entry. -/
def previewEntry (k v : PyObj) : Option (String × String) :=
  match pyStr k with
  | none => none
  | some ks =>
    match v.base.shape with
    | some shp => some (ks, type_name v ++ ": " ++ tupleStr shp)
    | none => some (ks, type_name v ++ ": " ++ safe_repr v 80)

/-- A Python list comprehension whose body may raise: `none` as soon as
one element raises, otherwise the list of results. -/
def traverseOpt (f : α → Option β) : List α → Option (List β)
  | [] => some []
  | a :: t =>
    match f a, traverseOpt f t with
    | some b, some bt => some (b :: bt)
    | _, _ => none

/-- `_inspect_dict(name, obj, max_items, max_name_length)` for a dict
whose entries (in iteration order) are `entries`.  The keys list applies
`_truncate_name` — and hence `str` — to each key *outside* any exception
guard, so a key whose `str` raises makes the whole call raise (`none`). -/
def inspect_dict (name : String) (o : PyObj) (entries : List (PyObj × PyObj))
    (maxItems : Nat) (mnl : Option Int) : Option Record := do
  let n := safe_len o
  let kvs := entries.take maxItems
  let keyStrs ← traverseOpt (fun k => truncate_name_obj k mnl) (kvs.map Prod.fst)
  let result : Record :=
    [("name", .s name), ("type", .s (type_name o)), ("length", optNatF n),
     ("keys", .strList keyStrs)]
  let result := match n with
    | some nv => if nv > maxItems then
        result ++ [("keys_truncated", .i (nv : Int))]
      else result
    | none => result
  let valuesPreview := (kvs.take (min 5 kvs.length)).filterMap
    fun p => previewEntry p.1 p.2
  let result := if valuesPreview.isEmpty then result
    else result ++ [("values_preview", .preview valuesPreview)]
  return result

/-- The known-library prefixes of `_inspect_generic`. -/
def knownPrefixes : List String :=
  ["pandas", "polars", "numpy", "xarray", "scipy", "sklearn", "torch"]

/-- `_inspect_generic(name, obj)`. -/
def inspect_generic (name : String) (o : PyObj) : Record :=
  let typ := match knownPrefixes.find? (fun p => pyStartsWith (moduleOf o) p) with
    | some p => p ++ "." ++ type_name o
    | none => type_name o
  let result : Record := [("name", .s name), ("type", .s typ)]
  let result := match o.base.shape with
    | none => result
    | some shp => result ++ [("shape", .intList shp)]
  let result := match o.base.dtypeA with
    | none => result
    | some d => result ++ [("dtype", .s d)]
  let result := match safe_len o with
    | none => result
    | some n => result ++ [("length", .i (n : Int))]
  result ++ [("repr", .s (safe_repr o 200))]

/-- `isinstance(obj, _SCALAR_TYPES)`. -/
def isScalar (o : PyObj) : Bool :=
  match o.kind with
  | .scalar => true
  | _ => false

/-- The large-sequence sample `[_type_name(obj[i]) for i in range(min(5, n))]`
of the list/tuple branch: indexing raises (`none`) when the reported
length claims more elements than exist. -/
def sampleIndexed (elems : List PyObj) (k : Nat) : Option (List String) :=
  if k ≤ elems.length then some ((elems.take k).map type_name) else none

/-- `inspect_one(name, obj, max_items, max_name_length)`: the dispatcher.
`none` models the call raising. -/
def inspect_one (name : String) (o : PyObj) (maxItems : Nat)
    (mnl : Option Int) : Option Record :=
  let mod := moduleOf o
  let cls := type_name o
  if isScalar o then
    some [("name", .s name), ("type", .s cls), ("value", .s (safe_repr o 200))]
  else if pyStartsWith mod "pandas" && cls == "DataFrame" then
    some (inspect_pandas_dataframe name o maxItems mnl)
  else if pyStartsWith mod "pandas" && cls == "Series" then
    some (inspect_pandas_series name o)
  else if pyStartsWith mod "polars" && cls == "DataFrame" then
    some (inspect_polars_dataframe name o maxItems mnl)
  else if pyStartsWith mod "polars" && cls == "LazyFrame" then
    some (inspect_polars_lazyframe name o maxItems mnl)
  else if pyStartsWith mod "polars" && cls == "Series" then
    some (inspect_polars_series name o)
  else if pyStartsWith mod "numpy" && cls == "ndarray" then
    some (inspect_numpy name o)
  else if pyStartsWith mod "xarray" && cls == "Dataset" then
    some (inspect_xarray_dataset name o maxItems mnl)
  else if pyStartsWith mod "xarray" && cls == "DataArray" then
    some (inspect_xarray_dataarray name o)
  else if pyStartsWith mod "xarray" && cls == "DataTree" then
    some (inspect_xarray_datatree name o maxItems mnl)
  else
    match o.kind with
    | .dictK entries => inspect_dict name o entries maxItems mnl
    | .seqK st elems =>
      let n := safe_len o
      let result : Record :=
        [("name", .s name), ("type", .s cls), ("length", optNatF n)]
      (match n with
       | some nv =>
         if nv > 20 then
           (match st with
            | .listTy | .tupleTy => sampleIndexed elems (min 5 nv)
            | .setTy | .frozensetTy =>
              some ((elems.take 5).map type_name)).map
             fun sample => result ++ [("element_types", FieldV.strList sample)]
         else some (result ++ [("repr", .s (safe_repr o 200))])
       | none => some (result ++ [("repr", .s (safe_repr o 200))]))
    | .callableK =>
      some [("name", .s name), ("type", .s cls),
            ("callable_name", .s (o.base.nameA.getD "?"))]
    | _ => some (inspect_generic name o)

/-- The fixed deny-list `_ALWAYS_SKIP`. -/
def ALWAYS_SKIP : List String :=
  ["In", "Out", "get_ipython", "exit", "quit", "open"]

/-- Auxiliary recursion for the substring test. -/
def strContainsChars (needle : List Char) : List Char → Bool
  | [] => needle.isEmpty
  | c :: t => needle.isPrefixOf (c :: t) || strContainsChars needle t

/-- Python's substring test `needle in hay`, on character lists. -/
def strContains (hay needle : String) : Bool :=
  strContainsChars needle.data hay.data

/-- ASCII case folding of one character — all that `str.lower()` does on
Python identifier names. -/
def charLowerAscii (c : Char) : Char :=
  if 'A' ≤ c ∧ c ≤ 'Z' then Char.ofNat (c.toNat + 32) else c

/-- `s.lower()` restricted to ASCII case folding. -/
def strLower (s : String) : String := ⟨s.data.map charLowerAscii⟩

/-- One pass of the filter loop of `list_user_variables`: `true` when the
binding `(vname, o)` survives every `continue`. -/
def keepEntry (includePrivate : Bool) (filterName : Option String)
    (vname : String) (o : PyObj) : Bool :=
  !(pyStartsWith vname "_" && !includePrivate) &&
  !(ALWAYS_SKIP.contains vname) &&
  !o.base.isModule &&
  (match filterName with
   | none => true
   | some f => !(f ≠ "" && !strContains (strLower vname) (strLower f)))

/-- The `entries` list of `list_user_variables`: filter in namespace
iteration order, then `entries[:max_variables]`. -/
def list_user_variables_entries (ns : List (String × PyObj))
    (maxVariables : Nat) (filterName : Option String)
    (includePrivate : Bool) : List (String × PyObj) :=
  (ns.filter fun p => keepEntry includePrivate filterName p.1 p.2).take
    maxVariables

/-- `list_user_variables(..., detail="basic")`: `{name, type, repr}`
triples over the filtered entries.  (The `schema` mode renders each
entry with `summarize_one`; its string output is not modelled here.) -/
def list_user_variables_basic (ns : List (String × PyObj))
    (maxVariables : Nat) (filterName : Option String)
    (includePrivate : Bool) : List Record :=
  (list_user_variables_entries ns maxVariables filterName includePrivate).map
    fun p =>
      [("name", .s p.1), ("type", .s (type_name p.2)),
       ("repr", .s (safe_repr p.2 100))]

/-- `list_user_variables(..., detail="full")`: `inspect_one` over the
filtered entries; raises (`none`) when any per-entry call raises. -/
def list_user_variables_full (ns : List (String × PyObj))
    (maxVariables : Nat) (maxItems : Nat) (mnl : Option Int)
    (filterName : Option String) (includePrivate : Bool) :
    Option (List Record) :=
  (list_user_variables_entries ns maxVariables filterName includePrivate).mapM
    fun p => inspect_one p.1 p.2 maxItems mnl

/-- The disjunction of every dispatch guard `inspect_one` tests before
its `isinstance(obj, dict)` step, in source order. -/
def dispatchedBeforeDict (o : PyObj) : Bool :=
  isScalar o ||
  (pyStartsWith (moduleOf o) "pandas" && type_name o == "DataFrame") ||
  (pyStartsWith (moduleOf o) "pandas" && type_name o == "Series") ||
  (pyStartsWith (moduleOf o) "polars" && type_name o == "DataFrame") ||
  (pyStartsWith (moduleOf o) "polars" && type_name o == "LazyFrame") ||
  (pyStartsWith (moduleOf o) "polars" && type_name o == "Series") ||
  (pyStartsWith (moduleOf o) "numpy" && type_name o == "ndarray") ||
  (pyStartsWith (moduleOf o) "xarray" && type_name o == "Dataset") ||
  (pyStartsWith (moduleOf o) "xarray" && type_name o == "DataArray") ||
  (pyStartsWith (moduleOf o) "xarray" && type_name o == "DataTree")

/-- The early-exit condition of `_safe_repr` as one test: a builtin bulk
container whose `len` succeeds with a value above 20. -/
def bulkOver20 (o : PyObj) : Bool :=
  isBulkContainer o &&
  (match pyLen o with
   | some n => decide (n > 20)
   | none => false)

/-- `isinstance(obj, dict)` — what the dispatcher's mapping step tests. -/
def isDictInstance (o : PyObj) : Bool :=
  match o.kind with
  | .dictK _ => true
  | _ => false

/-- Modelled from the spec: `isinstance` of the generic mapping capability
(`collections.abc.Mapping`), which every `dict` satisfies and which
non-dict mappings such as `ChainMap` also satisfy.  The source never
performs this test; the spec's dispatch step 9 is stated in terms of it. -/
def isMappingInstance (o : PyObj) : Bool :=
  match o.kind with
  | .dictK _ => true
  | .mappingABC => true
  | _ => false

/-- The record fields the spec calls bounded collection fields. -/
def boundedKeys : List String :=
  ["columns", "keys", "children", "data_vars", "coords"]

/-- Number of entries of a collection-valued field (0 for scalars). -/
def collSize : FieldV → Nat
  | .strList vs => vs.length
  | .intList vs => vs.length
  | .optStrList vs => vs.length
  | .cols cs => cs.length
  | .dims ds => ds.length
  | .varList vs => vs.length
  | .preview ps => ps.length
  | _ => 0

/-- Every bounded collection field of the record has at most `m` entries. -/
def CappedAt (r : Record) (m : Nat) : Prop :=
  ∀ p ∈ r, p.1 ∈ boundedKeys → collSize p.2 ≤ m

/-- Every `length`-keyed field of the record, when present, holds the
value `None` (null) — never a number. -/
def LengthNull (r : Record) : Prop :=
  ∀ p ∈ r, p.1 = "length" → p.2 = FieldV.null

/-- The string of `n` copies of `c`. -/
def strOfLen (c : Char) (n : Nat) : String := ⟨List.replicate n c⟩

/-- The scalar `int` object for the integer `n`. -/
def mkInt (n : Int) : PyObj :=
  .mk { noneBase with
        typeName := "int"
        module := "builtins"
        reprB := .ok (toString n)
        strB := .ok (toString n) } .scalar

/-- The scalar `str` object for the string `s`. -/
def mkStr (s : String) : PyObj :=
  .mk { noneBase with
        typeName := "str"
        module := "builtins"
        reprB := .ok ("'" ++ s ++ "'")
        strB := .ok s
        lenB := .val (s.length : Int) } .scalar

/-- `list(range(100))`. -/
def pyList100 : PyObj :=
  .mk { noneBase with
        typeName := "list"
        module := "builtins"
        lenB := .val 100 } (.seqK .listTy ((List.range 100).map fun i => mkInt i))

/-- `[1, 2, 3]`. -/
def pyList3 : PyObj :=
  .mk { noneBase with
        typeName := "list"
        module := "builtins"
        reprB := .ok "[1, 2, 3]"
        lenB := .val 3 } (.seqK .listTy [mkInt 1, mkInt 2, mkInt 3])

/-- An instance of a user class whose `__repr__` raises; having no
`__str__`, its `str()` falls back to the raising `__repr__`. -/
def badKey : PyObj :=
  .mk { noneBase with
        typeName := "Evil"
        module := "__main__" } .plain

/-- The plain dict `{Evil(): 1}`: a well-behaved `dict` holding one key
whose `str` raises. -/
def badKeyDict : PyObj :=
  .mk { noneBase with
        typeName := "dict"
        module := "builtins"
        lenB := .val 1 } (.dictK [(badKey, mkInt 1)])

/-- The entries of `{"k0": 0, ..., "k4": 4}`. -/
def dict5Entries : List (PyObj × PyObj) :=
  (List.range 5).map fun i => (mkStr ("k" ++ toString i), mkInt i)

/-- The dict `{"k0": 0, ..., "k4": 4}` with five string keys. -/
def dict5 : PyObj :=
  .mk { noneBase with
        typeName := "dict"
        module := "builtins"
        lenB := .val 5 }
    (.dictK dict5Entries)

/-- A dict of 25 integer entries (for the bulk-container early exit). -/
def bigDict25 : PyObj :=
  .mk { noneBase with
        typeName := "dict"
        module := "builtins"
        lenB := .val 25 }
    (.dictK ((List.range 25).map fun i => (mkInt i, mkInt i)))

/-- An `xarray.DataTree` whose dataset has three data variables. -/
def tree3 : PyObj :=
  .mk { noneBase with
        typeName := "DataTree"
        module := "xarray.core.datatree"
        datasetA := some
          { dataVars := some
              [("a", some "float64"), ("b", some "float64"), ("c", some "int64")]
            sizes := some [("time", 100)] }
        subtreeTotal := some 1 } .plain

/-- An `xarray.DataTree` with five children. -/
def tree5kids : PyObj :=
  .mk { noneBase with
        typeName := "DataTree"
        module := "xarray.core.datatree"
        childrenA := some ["n1", "n2", "n3", "n4", "n5"]
        subtreeTotal := some 6 } .plain

/-- An `xarray.Dataset` with five data variables. -/
def ds5 : PyObj :=
  .mk { noneBase with
        typeName := "Dataset"
        module := "xarray.core.dataset"
        sizesA := some [("time", 10)]
        dataVarsA := some ((List.range 5).map fun i =>
          ("v" ++ toString i, some "float64"))
        coordsA := some ["time"] } .plain

/-- A pandas DataFrame with 3 rows and 5 columns `c0..c4` of dtype
`int64`. -/
def pdf5 : PyObj :=
  .mk { noneBase with
        typeName := "DataFrame"
        module := "pandas.core.frame"
        shape := some [3, 5]
        columns := some ((List.range 5).map fun i => "c" ++ toString i)
        dtypes := some ((List.range 5).map fun i =>
          ("c" ++ toString i, some "int64"))
        indexA := some
          { typeName := "RangeIndex"
            dtypeStr := "int64"
            nlevels := none
            names := none }
        memoryBytes := some 252 } .plain

/-- A polars DataFrame with 3 rows and 5 columns `c0..c4`. -/
def pldf5 : PyObj :=
  .mk { noneBase with
        typeName := "DataFrame"
        module := "polars.dataframe.frame"
        shape := some [3, 5]
        columns := some ((List.range 5).map fun i => "c" ++ toString i)
        schemaA := some ((List.range 5).map fun i =>
          ("c" ++ toString i, some "Int64"))
        estimatedSize := some 120 } .plain

/-- A polars LazyFrame whose `collect_schema()` raises. -/
def lazyFail : PyObj :=
  .mk { noneBase with
        typeName := "LazyFrame"
        module := "polars.lazyframe.frame" } .plain

/-- A polars LazyFrame with a five-column schema. -/
def lazy5 : PyObj :=
  .mk { noneBase with
        typeName := "LazyFrame"
        module := "polars.lazyframe.frame"
        collectSchema := some ((List.range 5).map fun i =>
          ("c" ++ toString i, some "Int64")) } .plain

/-- An instance of a user class with a 250-character class name whose
`__repr__` raises. -/
def longNameObj : PyObj :=
  .mk { noneBase with
        typeName := strOfLen 'X' 250
        module := "__main__" } .plain

/-- An instance of a user class whose `repr` is a well-behaved
30-character string. -/
def reprObj30 : PyObj :=
  .mk { noneBase with
        typeName := "Blob"
        module := "__main__"
        reprB := .ok (strOfLen 'a' 30)
        strB := .ok (strOfLen 'a' 30) } .plain

/-- A `collections.ChainMap`: an instance of the generic mapping
capability that is not a `dict`. -/
def chainMapObj : PyObj :=
  .mk { noneBase with
        typeName := "ChainMap"
        module := "collections"
        reprB := .ok "ChainMap({}, {})"
        strB := .ok "ChainMap({}, {})"
        lenB := .val 0 } .mappingABC

/-- An instance of a dict subclass whose `__len__` returns `-1` (so the
builtin `len` raises `ValueError`). -/
def negLenDict : PyObj :=
  .mk { noneBase with
        typeName := "NegDict"
        module := "__main__"
        lenB := .val (-1) } (.dictK [])

/-- An instance of a user class with raising `__len__` and `__repr__`
that also reports a negative length, seen by the generic extractor. -/
def negLenPlain : PyObj :=
  .mk { noneBase with
        typeName := "NegLen"
        module := "__main__"
        lenB := .val (-3) } .plain

/-- An instance of a list subclass whose `__len__` returns `-2`. -/
def negLenList : PyObj :=
  .mk { noneBase with
        typeName := "NegList"
        module := "__main__"
        reprB := .ok "[]"
        strB := .ok "[]"
        lenB := .val (-2) } (.seqK .listTy [])

/-- A module object (`types.ModuleType`), as bound by `import numpy`. -/
def moduleObj : PyObj :=
  .mk { noneBase with
        typeName := "module"
        module := "builtins"
        reprB := .ok "<module>"
        strB := .ok "<module>"
        isModule := true } .plain

/-- Every key of the record lies in `ks`. -/
def KeysIn (r : Record) (ks : List String) : Prop :=
  ∀ p ∈ r, p.1 ∈ ks

/-- A five-binding namespace: a frame, a private name, a module binding,
a deny-listed name and a plain int. -/
def ns5 : List (String × PyObj) :=
  [("df", pdf5), ("_x", mkInt 1), ("np", moduleObj), ("In", mkInt 2),
   ("count", mkInt 42)]

/-!  Theorems.  -/

theorem strTake_length (s : String) (n : Nat) :
    (strTake s n).length = min n s.length := by
  cases s
  simp [strTake, String.length]

theorem keysIn_nil {ks : List String} : KeysIn [] ks := by
  intro p hp
  cases hp

theorem keysIn_cons {k : String} {v : FieldV} {t : Record} {ks : List String}
    (h1 : k ∈ ks) (h2 : KeysIn t ks) : KeysIn ((k, v) :: t) ks := by
  intro p hp
  rcases List.mem_cons.mp hp with rfl | hp'
  · exact h1
  · exact h2 p hp'

theorem keysIn_append {a b : Record} {ks : List String}
    (ha : KeysIn a ks) (hb : KeysIn b ks) : KeysIn (a ++ b) ks := by
  intro p hp
  rcases List.mem_append.mp hp with h | h
  · exact ha p h
  · exact hb p h

theorem cappedAt_nil {m : Nat} : CappedAt [] m := by
  intro p hp
  cases hp

theorem cappedAt_cons {m : Nat} {k : String} {v : FieldV} {t : Record}
    (h1 : k ∈ boundedKeys → collSize v ≤ m) (h2 : CappedAt t m) :
    CappedAt ((k, v) :: t) m := by
  intro p hp hk
  rcases List.mem_cons.mp hp with rfl | hp'
  · exact h1 hk
  · exact h2 p hp' hk

theorem cappedAt_append {m : Nat} {a b : Record}
    (ha : CappedAt a m) (hb : CappedAt b m) : CappedAt (a ++ b) m := by
  intro p hp hk
  rcases List.mem_append.mp hp with h | h
  · exact ha p h hk
  · exact hb p h hk

theorem lengthNull_nil : LengthNull [] := by
  intro p hp
  cases hp

theorem lengthNull_cons {k : String} {v : FieldV} {t : Record}
    (h1 : k = "length" → v = FieldV.null) (h2 : LengthNull t) :
    LengthNull ((k, v) :: t) := by
  intro p hp hk
  rcases List.mem_cons.mp hp with rfl | hp'
  · exact h1 hk
  · exact h2 p hp' hk

theorem lengthNull_append {a b : Record}
    (ha : LengthNull a) (hb : LengthNull b) : LengthNull (a ++ b) := by
  intro p hp hk
  rcases List.mem_append.mp hp with h | h
  · exact ha p h hk
  · exact hb p h hk

theorem take_map_length_le {α β : Type} (f : α → β) (l : List α) (m : Nat) :
    ((l.take m).map f).length ≤ m := by
  simp [List.length_take]

theorem lookup_append_some {k : String} {a : Record} (b : Record)
    {v : FieldV} (h : List.lookup k a = some v) :
    List.lookup k (a ++ b) = some v := by
  induction a with
  | nil => simp [List.lookup] at h
  | cons p t ih =>
    obtain ⟨k', v'⟩ := p
    rw [List.cons_append]
    unfold List.lookup at h ⊢
    cases hbe : k == k'
    · rw [hbe] at h
      dsimp only at h ⊢
      exact ih h
    · rw [hbe] at h
      dsimp only at h ⊢
      exact h

theorem traverseOpt_length {α β : Type} (f : α → Option β) :
    ∀ {l : List α} {l' : List β}, traverseOpt f l = some l' →
      l'.length = l.length := by
  intro l
  induction l with
  | nil =>
    intro l' h
    simp only [traverseOpt, Option.some.injEq] at h
    subst h
    rfl
  | cons a t ih =>
    intro l' h
    unfold traverseOpt at h
    cases hfa : f a <;> rw [hfa] at h
    · simp at h
    · cases hmt : traverseOpt f t <;> rw [hmt] at h
      · simp at h
      · simp only [Option.some.injEq] at h
        subst h
        simp [ih hmt]

theorem polars_not_pandas {s : String} (h : pyStartsWith s "polars" = true) :
    pyStartsWith s "pandas" = false := by
  have h' : List.isPrefixOf ('p' :: 'o' :: 'l' :: 'a' :: 'r' :: 's' :: []) s.data
      = true := h
  show List.isPrefixOf ('p' :: 'a' :: 'n' :: 'd' :: 'a' :: 's' :: []) s.data
      = false
  rcases hs : s.data with _ | ⟨a, _ | ⟨b, u⟩⟩ <;> rw [hs] at h' <;>
    simp [List.isPrefixOf] at h' ⊢
  obtain ⟨-, h2, -⟩ := h'
  intro _ hab
  exact absurd (hab.trans h2.symm) (by decide)

theorem inspect_pandas_dataframe_capped (name : String) (o : PyObj) (mi : Nat)
    (mnl : Option Int) :
    CappedAt (inspect_pandas_dataframe name o mi mnl) mi := by
  unfold inspect_pandas_dataframe
  dsimp only
  repeat' split
  all_goals
    repeat' first
      | exact cappedAt_nil
      | apply cappedAt_append
      | refine cappedAt_cons (fun hbk => absurd hbk (by decide)) ?_
      | refine cappedAt_cons (fun hbk => by
          simp only [collSize, List.length_map, List.length_take]
          omega) ?_

theorem inspect_pandas_series_capped (name : String) (o : PyObj) (mi : Nat) :
    CappedAt (inspect_pandas_series name o) mi := by
  unfold inspect_pandas_series
  dsimp only
  repeat' split
  all_goals
    repeat' first
      | exact cappedAt_nil
      | apply cappedAt_append
      | refine cappedAt_cons (fun hbk => absurd hbk (by decide)) ?_

theorem inspect_polars_dataframe_capped (name : String) (o : PyObj) (mi : Nat)
    (mnl : Option Int) :
    CappedAt (inspect_polars_dataframe name o mi mnl) mi := by
  unfold inspect_polars_dataframe
  dsimp only
  repeat' split
  all_goals
    repeat' first
      | exact cappedAt_nil
      | apply cappedAt_append
      | refine cappedAt_cons (fun hbk => absurd hbk (by decide)) ?_
      | refine cappedAt_cons (fun hbk => by
          simp only [collSize, List.length_map, List.length_take]
          omega) ?_

theorem inspect_polars_lazyframe_capped (name : String) (o : PyObj) (mi : Nat)
    (mnl : Option Int) :
    CappedAt (inspect_polars_lazyframe name o mi mnl) mi := by
  unfold inspect_polars_lazyframe
  dsimp only
  repeat' split
  all_goals
    repeat' first
      | exact cappedAt_nil
      | apply cappedAt_append
      | refine cappedAt_cons (fun hbk => absurd hbk (by decide)) ?_
      | refine cappedAt_cons (fun hbk => by
          refine le_trans (List.length_filterMap_le _ _) ?_
          simp only [List.length_map, List.length_take]
          omega) ?_

theorem inspect_polars_series_capped (name : String) (o : PyObj) (mi : Nat) :
    CappedAt (inspect_polars_series name o) mi := by
  unfold inspect_polars_series
  dsimp only
  repeat' split
  all_goals
    repeat' first
      | exact cappedAt_nil
      | apply cappedAt_append
      | refine cappedAt_cons (fun hbk => absurd hbk (by decide)) ?_

theorem inspect_numpy_capped (name : String) (o : PyObj) (mi : Nat) :
    CappedAt (inspect_numpy name o) mi := by
  unfold inspect_numpy
  repeat' first
    | exact cappedAt_nil
    | refine cappedAt_cons (fun hbk => absurd hbk (by decide)) ?_

theorem inspect_xarray_dataset_capped (name : String) (o : PyObj) (mi : Nat)
    (mnl : Option Int) :
    CappedAt (inspect_xarray_dataset name o mi mnl) mi := by
  unfold inspect_xarray_dataset
  dsimp only
  repeat' split
  all_goals
    repeat' first
      | exact cappedAt_nil
      | apply cappedAt_append
      | refine cappedAt_cons (fun hbk => absurd hbk (by decide)) ?_
      | refine cappedAt_cons (fun hbk => by
          simp only [collSize, List.length_map, List.length_take]
          omega) ?_

theorem inspect_xarray_dataarray_capped (name : String) (o : PyObj)
    (mi : Nat) : CappedAt (inspect_xarray_dataarray name o) mi := by
  unfold inspect_xarray_dataarray
  dsimp only
  repeat' split
  all_goals
    repeat' first
      | exact cappedAt_nil
      | apply cappedAt_append
      | refine cappedAt_cons (fun hbk => absurd hbk (by decide)) ?_

theorem inspect_xarray_datatree_capped (name : String) (o : PyObj) (mi : Nat)
    (mnl : Option Int) :
    CappedAt (inspect_xarray_datatree name o mi mnl) mi := by
  unfold inspect_xarray_datatree
  dsimp only
  repeat' split
  all_goals
    repeat' first
      | exact cappedAt_nil
      | apply cappedAt_append
      | refine cappedAt_cons (fun hbk => absurd hbk (by decide)) ?_
      | refine cappedAt_cons (fun hbk => by
          simp only [collSize, List.length_map, List.length_take]
          omega) ?_

theorem inspect_generic_capped (name : String) (o : PyObj) (mi : Nat) :
    CappedAt (inspect_generic name o) mi := by
  unfold inspect_generic
  dsimp only
  repeat' split
  all_goals
    repeat' first
      | exact cappedAt_nil
      | apply cappedAt_append
      | refine cappedAt_cons (fun hbk => absurd hbk (by decide)) ?_

theorem inspect_dict_capped (name : String) (o : PyObj)
    (entries : List (PyObj × PyObj)) (mi : Nat) (mnl : Option Int)
    (r : Record) (hr : inspect_dict name o entries mi mnl = some r) :
    CappedAt r mi := by
  unfold inspect_dict at hr
  dsimp only at hr
  cases hts : traverseOpt (fun k => truncate_name_obj k mnl)
      ((entries.take mi).map Prod.fst)
  · rw [hts] at hr
    simp at hr
  · rename_i ks
    rw [hts] at hr
    simp only [Option.bind_eq_bind, Option.some_bind, Option.pure_def,
      Option.some.injEq] at hr
    subst hr
    have hklen : ks.length ≤ mi := by
      rw [traverseOpt_length _ hts]
      simp only [List.length_map, List.length_take]
      omega
    repeat' split
    all_goals
      repeat' first
        | exact cappedAt_nil
        | apply cappedAt_append
        | refine cappedAt_cons (fun hbk => absurd hbk (by decide)) ?_
        | refine cappedAt_cons (fun hbk => by
            simpa only [collSize] using hklen) ?_

theorem inspect_one_capped (name : String) (o : PyObj) (mi : Nat)
    (mnl : Option Int) (r : Record)
    (h : inspect_one name o mi mnl = some r) : CappedAt r mi := by
  unfold inspect_one at h
  dsimp only at h
  by_cases h0 : isScalar o = true
  · rw [if_pos h0] at h
    obtain rfl := Option.some.inj h
    repeat' first
      | exact cappedAt_nil
      | refine cappedAt_cons (fun hbk => absurd hbk (by decide)) ?_
  rw [if_neg h0] at h
  by_cases h1 : (pyStartsWith (moduleOf o) "pandas" && type_name o == "DataFrame") = true
  · rw [if_pos h1] at h
    obtain rfl := Option.some.inj h
    exact inspect_pandas_dataframe_capped _ _ _ _
  rw [if_neg h1] at h
  by_cases h2 : (pyStartsWith (moduleOf o) "pandas" && type_name o == "Series") = true
  · rw [if_pos h2] at h
    obtain rfl := Option.some.inj h
    exact inspect_pandas_series_capped _ _ _
  rw [if_neg h2] at h
  by_cases h3 : (pyStartsWith (moduleOf o) "polars" && type_name o == "DataFrame") = true
  · rw [if_pos h3] at h
    obtain rfl := Option.some.inj h
    exact inspect_polars_dataframe_capped _ _ _ _
  rw [if_neg h3] at h
  by_cases h4 : (pyStartsWith (moduleOf o) "polars" && type_name o == "LazyFrame") = true
  · rw [if_pos h4] at h
    obtain rfl := Option.some.inj h
    exact inspect_polars_lazyframe_capped _ _ _ _
  rw [if_neg h4] at h
  by_cases h5 : (pyStartsWith (moduleOf o) "polars" && type_name o == "Series") = true
  · rw [if_pos h5] at h
    obtain rfl := Option.some.inj h
    exact inspect_polars_series_capped _ _ _
  rw [if_neg h5] at h
  by_cases h6 : (pyStartsWith (moduleOf o) "numpy" && type_name o == "ndarray") = true
  · rw [if_pos h6] at h
    obtain rfl := Option.some.inj h
    exact inspect_numpy_capped _ _ _
  rw [if_neg h6] at h
  by_cases h7 : (pyStartsWith (moduleOf o) "xarray" && type_name o == "Dataset") = true
  · rw [if_pos h7] at h
    obtain rfl := Option.some.inj h
    exact inspect_xarray_dataset_capped _ _ _ _
  rw [if_neg h7] at h
  by_cases h8 : (pyStartsWith (moduleOf o) "xarray" && type_name o == "DataArray") = true
  · rw [if_pos h8] at h
    obtain rfl := Option.some.inj h
    exact inspect_xarray_dataarray_capped _ _ _
  rw [if_neg h8] at h
  by_cases h9 : (pyStartsWith (moduleOf o) "xarray" && type_name o == "DataTree") = true
  · rw [if_pos h9] at h
    obtain rfl := Option.some.inj h
    exact inspect_xarray_datatree_capped _ _ _ _
  rw [if_neg h9] at h
  cases hk : o.kind <;> rw [hk] at h <;> dsimp only at h
  · -- scalar kind
    obtain rfl := Option.some.inj h
    exact inspect_generic_capped _ _ _
  · -- dictK
    exact inspect_dict_capped _ _ _ _ _ _ h
  · -- seqK
    rename_i st elems
    cases hsl : safe_len o <;> rw [hsl] at h <;> dsimp only at h
    · obtain rfl := Option.some.inj h
      repeat' first
        | exact cappedAt_nil
        | apply cappedAt_append
        | refine cappedAt_cons (fun hbk => absurd hbk (by decide)) ?_
    · rename_i nv
      by_cases h20 : nv > 20
      · rw [if_pos h20] at h
        rw [Option.map_eq_some'] at h
        obtain ⟨s, hs, hr⟩ := h
        subst hr
        repeat' first
          | exact cappedAt_nil
          | apply cappedAt_append
          | refine cappedAt_cons (fun hbk => absurd hbk (by decide)) ?_
      · rw [if_neg h20] at h
        obtain rfl := Option.some.inj h
        repeat' first
          | exact cappedAt_nil
          | apply cappedAt_append
          | refine cappedAt_cons (fun hbk => absurd hbk (by decide)) ?_
  · -- mappingABC
    obtain rfl := Option.some.inj h
    exact inspect_generic_capped _ _ _
  · -- callableK
    obtain rfl := Option.some.inj h
    repeat' first
      | exact cappedAt_nil
      | refine cappedAt_cons (fun hbk => absurd hbk (by decide)) ?_
  · -- plain
    obtain rfl := Option.some.inj h
    exact inspect_generic_capped _ _ _

theorem pandas_columns_truncated_get (name : String) (o : PyObj) (mi : Nat)
    (mnl : Option Int) (nrows : Int) (cols : List String)
    (hsh : o.base.shape = some [nrows, (cols.length : Int)])
    (hcols : o.base.columns = some cols)
    (hgt : mi < cols.length) :
    Record.get (inspect_pandas_dataframe name o mi mnl) "columns_truncated" =
      some (.i (cols.length : Int)) := by
  unfold inspect_pandas_dataframe
  dsimp only
  rw [hsh, hcols]
  simp only [Option.getD_some, List.length_cons, List.length_nil]
  norm_num
  repeat' split
  all_goals first
    | exact absurd hgt (by assumption)
    | rfl

theorem polars_columns_truncated_get (name : String) (o : PyObj) (mi : Nat)
    (mnl : Option Int) (nrows : Int) (cols : List String)
    (hsh : o.base.shape = some [nrows, (cols.length : Int)])
    (hcols : o.base.columns = some cols)
    (hgt : mi < cols.length) :
    Record.get (inspect_polars_dataframe name o mi mnl) "columns_truncated" =
      some (.i (cols.length : Int)) := by
  unfold inspect_polars_dataframe
  dsimp only
  rw [hsh, hcols]
  simp only [Option.getD_some, List.length_cons, List.length_nil]
  norm_num
  repeat' split
  all_goals first
    | exact absurd hgt (by assumption)
    | rfl

theorem lazyframe_columns_truncated_get (name : String) (o : PyObj) (mi : Nat)
    (mnl : Option Int) (sch : List (String × Option String))
    (hcs : o.base.collectSchema = some sch)
    (hgt : mi < sch.length) :
    Record.get (inspect_polars_lazyframe name o mi mnl) "columns_truncated" =
      some (.i (sch.length : Int)) := by
  unfold inspect_polars_lazyframe
  dsimp only
  rw [hcs]
  dsimp only
  repeat' split
  all_goals first
    | exact absurd hgt (by assumption)
    | rfl

theorem dataset_data_vars_truncated_get (name : String) (o : PyObj) (mi : Nat)
    (mnl : Option Int) (dvs : List (String × Option String))
    (hdv : o.base.dataVarsA = some dvs)
    (hgt : mi < dvs.length) :
    Record.get (inspect_xarray_dataset name o mi mnl) "data_vars_truncated" =
      some (.i (dvs.length : Int)) := by
  unfold inspect_xarray_dataset
  dsimp only
  rw [hdv]
  dsimp only
  repeat' split
  all_goals first
    | exact absurd hgt (by assumption)
    | rfl

theorem datatree_children_truncated_get (name : String) (o : PyObj) (mi : Nat)
    (mnl : Option Int) (ch : List String)
    (hch : o.base.childrenA = some ch)
    (hne : ch ≠ [])
    (hgt : mi < ch.length) :
    Record.get (inspect_xarray_datatree name o mi mnl) "children_truncated" =
      some (.i (ch.length : Int)) := by
  unfold inspect_xarray_datatree
  dsimp only
  rw [hch]
  dsimp only
  repeat' split
  all_goals first
    | exact absurd (List.isEmpty_iff.mp (by assumption)) hne
    | exact absurd hgt (by assumption)
    | rfl

theorem dict_keys_truncated_get (name : String) (o : PyObj)
    (entries : List (PyObj × PyObj)) (mi : Nat) (mnl : Option Int)
    (r : Record)
    (hlen : o.base.lenB = .val (entries.length : Int))
    (hr : inspect_dict name o entries mi mnl = some r)
    (hgt : mi < entries.length) :
    Record.get r "keys_truncated" = some (.i (entries.length : Int)) := by
  have hsl : safe_len o = some entries.length := by
    simp [safe_len, pyLen, hlen]
  unfold inspect_dict at hr
  dsimp only at hr
  cases hts : traverseOpt (fun k => truncate_name_obj k mnl)
      ((entries.take mi).map Prod.fst)
  · rw [hts] at hr
    simp at hr
  · rw [hts] at hr
    simp only [Option.bind_eq_bind, Option.some_bind, Option.pure_def,
      Option.some.injEq] at hr
    subst hr
    rw [hsl]
    dsimp only
    rw [if_pos hgt]
    repeat' split
    all_goals rfl

theorem inspect_pandas_dataframe_length_null (name : String) (o : PyObj)
    (mi : Nat) (mnl : Option Int) :
    LengthNull (inspect_pandas_dataframe name o mi mnl) := by
  unfold inspect_pandas_dataframe
  dsimp only
  repeat' split
  all_goals
    repeat' first
      | exact lengthNull_nil
      | apply lengthNull_append
      | refine lengthNull_cons (fun hbk => absurd hbk (by decide)) ?_

theorem inspect_pandas_series_length_null (name : String) (o : PyObj) :
    LengthNull (inspect_pandas_series name o) := by
  unfold inspect_pandas_series
  dsimp only
  repeat' split
  all_goals
    repeat' first
      | exact lengthNull_nil
      | apply lengthNull_append
      | refine lengthNull_cons (fun hbk => absurd hbk (by decide)) ?_

theorem inspect_polars_dataframe_length_null (name : String) (o : PyObj)
    (mi : Nat) (mnl : Option Int) :
    LengthNull (inspect_polars_dataframe name o mi mnl) := by
  unfold inspect_polars_dataframe
  dsimp only
  repeat' split
  all_goals
    repeat' first
      | exact lengthNull_nil
      | apply lengthNull_append
      | refine lengthNull_cons (fun hbk => absurd hbk (by decide)) ?_

theorem inspect_polars_lazyframe_length_null (name : String) (o : PyObj)
    (mi : Nat) (mnl : Option Int) :
    LengthNull (inspect_polars_lazyframe name o mi mnl) := by
  unfold inspect_polars_lazyframe
  dsimp only
  repeat' split
  all_goals
    repeat' first
      | exact lengthNull_nil
      | apply lengthNull_append
      | refine lengthNull_cons (fun hbk => absurd hbk (by decide)) ?_

theorem inspect_polars_series_length_null (name : String) (o : PyObj) :
    LengthNull (inspect_polars_series name o) := by
  unfold inspect_polars_series
  dsimp only
  repeat' split
  all_goals
    repeat' first
      | exact lengthNull_nil
      | apply lengthNull_append
      | refine lengthNull_cons (fun hbk => absurd hbk (by decide)) ?_

theorem inspect_numpy_length_null (name : String) (o : PyObj) :
    LengthNull (inspect_numpy name o) := by
  unfold inspect_numpy
  repeat' first
    | exact lengthNull_nil
    | refine lengthNull_cons (fun hbk => absurd hbk (by decide)) ?_

theorem inspect_xarray_dataset_length_null (name : String) (o : PyObj)
    (mi : Nat) (mnl : Option Int) :
    LengthNull (inspect_xarray_dataset name o mi mnl) := by
  unfold inspect_xarray_dataset
  dsimp only
  repeat' split
  all_goals
    repeat' first
      | exact lengthNull_nil
      | apply lengthNull_append
      | refine lengthNull_cons (fun hbk => absurd hbk (by decide)) ?_

theorem inspect_xarray_dataarray_length_null (name : String) (o : PyObj) :
    LengthNull (inspect_xarray_dataarray name o) := by
  unfold inspect_xarray_dataarray
  dsimp only
  repeat' split
  all_goals
    repeat' first
      | exact lengthNull_nil
      | apply lengthNull_append
      | refine lengthNull_cons (fun hbk => absurd hbk (by decide)) ?_

theorem inspect_xarray_datatree_length_null (name : String) (o : PyObj)
    (mi : Nat) (mnl : Option Int) :
    LengthNull (inspect_xarray_datatree name o mi mnl) := by
  unfold inspect_xarray_datatree
  dsimp only
  repeat' split
  all_goals
    repeat' first
      | exact lengthNull_nil
      | apply lengthNull_append
      | refine lengthNull_cons (fun hbk => absurd hbk (by decide)) ?_

theorem inspect_generic_length_null (name : String) (o : PyObj)
    (hsl : safe_len o = none) :
    LengthNull (inspect_generic name o) := by
  unfold inspect_generic
  dsimp only
  rw [hsl]
  dsimp only
  repeat' split
  all_goals
    repeat' first
      | exact lengthNull_nil
      | apply lengthNull_append
      | refine lengthNull_cons (fun hbk => absurd hbk (by decide)) ?_

theorem inspect_dict_length_null (name : String) (o : PyObj)
    (entries : List (PyObj × PyObj)) (mi : Nat) (mnl : Option Int)
    (r : Record) (hsl : safe_len o = none)
    (hr : inspect_dict name o entries mi mnl = some r) :
    LengthNull r := by
  unfold inspect_dict at hr
  dsimp only at hr
  cases hts : traverseOpt (fun k => truncate_name_obj k mnl)
      ((entries.take mi).map Prod.fst)
  · rw [hts] at hr
    simp at hr
  · rw [hts] at hr
    simp only [Option.bind_eq_bind, Option.some_bind, Option.pure_def,
      Option.some.injEq] at hr
    subst hr
    rw [hsl]
    dsimp only
    repeat' split
    all_goals
      repeat' first
        | exact lengthNull_nil
        | apply lengthNull_append
        | refine lengthNull_cons (fun hbk => absurd hbk (by decide)) ?_
        | refine lengthNull_cons (fun hbk => rfl) ?_

theorem inspect_one_length_null (o : PyObj) (hsl : safe_len o = none)
    (name : String) (mi : Nat) (mnl : Option Int) (r : Record)
    (h : inspect_one name o mi mnl = some r) : LengthNull r := by
  unfold inspect_one at h
  dsimp only at h
  by_cases h0 : isScalar o = true
  · rw [if_pos h0] at h
    obtain rfl := Option.some.inj h
    repeat' first
      | exact lengthNull_nil
      | refine lengthNull_cons (fun hbk => absurd hbk (by decide)) ?_
  rw [if_neg h0] at h
  by_cases h1 : (pyStartsWith (moduleOf o) "pandas" && type_name o == "DataFrame") = true
  · rw [if_pos h1] at h
    obtain rfl := Option.some.inj h
    exact inspect_pandas_dataframe_length_null _ _ _ _
  rw [if_neg h1] at h
  by_cases h2 : (pyStartsWith (moduleOf o) "pandas" && type_name o == "Series") = true
  · rw [if_pos h2] at h
    obtain rfl := Option.some.inj h
    exact inspect_pandas_series_length_null _ _
  rw [if_neg h2] at h
  by_cases h3 : (pyStartsWith (moduleOf o) "polars" && type_name o == "DataFrame") = true
  · rw [if_pos h3] at h
    obtain rfl := Option.some.inj h
    exact inspect_polars_dataframe_length_null _ _ _ _
  rw [if_neg h3] at h
  by_cases h4 : (pyStartsWith (moduleOf o) "polars" && type_name o == "LazyFrame") = true
  · rw [if_pos h4] at h
    obtain rfl := Option.some.inj h
    exact inspect_polars_lazyframe_length_null _ _ _ _
  rw [if_neg h4] at h
  by_cases h5 : (pyStartsWith (moduleOf o) "polars" && type_name o == "Series") = true
  · rw [if_pos h5] at h
    obtain rfl := Option.some.inj h
    exact inspect_polars_series_length_null _ _
  rw [if_neg h5] at h
  by_cases h6 : (pyStartsWith (moduleOf o) "numpy" && type_name o == "ndarray") = true
  · rw [if_pos h6] at h
    obtain rfl := Option.some.inj h
    exact inspect_numpy_length_null _ _
  rw [if_neg h6] at h
  by_cases h7 : (pyStartsWith (moduleOf o) "xarray" && type_name o == "Dataset") = true
  · rw [if_pos h7] at h
    obtain rfl := Option.some.inj h
    exact inspect_xarray_dataset_length_null _ _ _ _
  rw [if_neg h7] at h
  by_cases h8 : (pyStartsWith (moduleOf o) "xarray" && type_name o == "DataArray") = true
  · rw [if_pos h8] at h
    obtain rfl := Option.some.inj h
    exact inspect_xarray_dataarray_length_null _ _
  rw [if_neg h8] at h
  by_cases h9 : (pyStartsWith (moduleOf o) "xarray" && type_name o == "DataTree") = true
  · rw [if_pos h9] at h
    obtain rfl := Option.some.inj h
    exact inspect_xarray_datatree_length_null _ _ _ _
  rw [if_neg h9] at h
  cases hk : o.kind <;> rw [hk] at h <;> dsimp only at h
  · -- scalar kind
    obtain rfl := Option.some.inj h
    exact inspect_generic_length_null _ _ hsl
  · -- dictK
    exact inspect_dict_length_null _ _ _ _ _ _ hsl h
  · -- seqK
    rw [hsl] at h
    dsimp only at h
    obtain rfl := Option.some.inj h
    repeat' first
      | exact lengthNull_nil
      | apply lengthNull_append
      | refine lengthNull_cons (fun hbk => absurd hbk (by decide)) ?_
      | refine lengthNull_cons (fun hbk => rfl) ?_
  · -- mappingABC
    obtain rfl := Option.some.inj h
    exact inspect_generic_length_null _ _ hsl
  · -- callableK
    obtain rfl := Option.some.inj h
    repeat' first
      | exact lengthNull_nil
      | refine lengthNull_cons (fun hbk => absurd hbk (by decide)) ?_
  · -- plain
    obtain rfl := Option.some.inj h
    exact inspect_generic_length_null _ _ hsl

/-- C1: `inspect_one` is claimed never to raise for any input object, but
on the plain dict `{Evil(): 1}` — where `Evil.__repr__` raises and the
key's `str()` therefore raises — the keys list comprehension of
`_inspect_dict` applies `_truncate_name`, hence `str`, to the key outside
any exception guard, and the exception propagates out of `inspect_one`. -/
theorem inspect_one_raises_on_unprintable_dict_key :
    inspect_one "d" badKeyDict 20 (some 60) = none := by decide

/-- C2 counterexample: an `xarray.DataTree` whose dataset holds three
data variables, inspected with `max_items = 2`: the record's `data_vars`
field is capped to two entries, the true count 3 exceeds `max_items`, yet
no `data_vars_truncated` field is present — `_inspect_xarray_datatree`
never sets it. -/
theorem datatree_missing_data_vars_truncated :
    (tree3.base.datasetA.map fun d => (d.dataVars.getD []).length) = some 3 ∧
    Record.get ((inspect_one "t" tree3 2 (some 60)).getD []) "data_vars" =
      some (.varList [("a", some "float64"), ("b", some "float64")]) ∧
    Record.get ((inspect_one "t" tree3 2 (some 60)).getD []) "data_vars_truncated" =
      none := by
  decide

/-- C3 counterexample: for an object with a 250-character class name
whose `repr` raises, the generic extractor emits
`repr = _safe_repr(obj, 200) = "<XXX...X>"` of length 252, which exceeds
the requested cap 200 by more than 3. -/
theorem safe_repr_emitted_exceeds_budget :
    Record.get ((inspect_one "w" longNameObj 20 (some 60)).getD []) "repr" =
      some (.s (safe_repr longNameObj 200)) ∧
    (safe_repr longNameObj 200).length = 252 := by
  decide

/-- C5 counterexample: a `collections.ChainMap` is an instance of the
generic mapping capability but not of `dict`; `inspect_one` sends it to
the generic extractor, so its record has no `keys` field. -/
theorem generic_mapping_not_routed_to_mapping_extractor :
    isMappingInstance chainMapObj = true ∧
    isDictInstance chainMapObj = false ∧
    Record.get ((inspect_one "m" chainMapObj 20 (some 60)).getD []) "keys" =
      none := by
  decide

/-- C8 counterexample: with `max_len = 2` and the six-character name
`"abcdef"`, `_truncate_name` returns `"abcde..."` — the negative slice
`s[:max_len-3]` keeps all but the last character — so the result does not
have exactly `max_len` characters. -/
theorem truncate_name_small_budget_not_exact :
    truncate_name "abcdef" (some 2) = "abcde..." ∧
    (truncate_name "abcdef" (some 2)).length ≠ 2 := by
  decide

/-- C10 counterexample: a dict subclass whose `__len__` returns `-1`:
`_safe_len` gives `None`, but the dict extractor still stores the
`length` key (with value `None`) in the record, so the record does have a
`length` field. -/
theorem negative_len_dict_record_keeps_length_key :
    safe_len negLenDict = none ∧
    Record.get ((inspect_one "d" negLenDict 20 (some 60)).getD []) "length" =
      some FieldV.null := by
  decide

/-- C2 amended: every bounded collection field (`columns`, `keys`,
`children`, `data_vars`, `coords`) of any record `inspect_one` returns
has at most `max_items` entries; and the paired `*_truncated` field
equals the true total for pandas/polars eager columns (on
shape-consistent frames), lazy columns, dict keys (with the builtin
`__len__`), Dataset `data_vars` and DataTree `children` — but a
DataTree's `data_vars`, though capped, is never paired with
`data_vars_truncated` (see the counterexample). -/
theorem bounded_fields_capped_and_truncated :
    (∀ (name : String) (o : PyObj) (mi : Nat) (mnl : Option Int)
      (r : Record), inspect_one name o mi mnl = some r → CappedAt r mi) ∧
    (∀ (name : String) (o : PyObj) (mi : Nat) (mnl : Option Int)
      (nrows : Int) (cols : List String),
      o.base.shape = some [nrows, (cols.length : Int)] →
      o.base.columns = some cols → mi < cols.length →
      Record.get (inspect_pandas_dataframe name o mi mnl)
        "columns_truncated" = some (.i (cols.length : Int)) ∧
      Record.get (inspect_polars_dataframe name o mi mnl)
        "columns_truncated" = some (.i (cols.length : Int))) ∧
    (∀ (name : String) (o : PyObj) (mi : Nat) (mnl : Option Int)
      (sch : List (String × Option String)),
      o.base.collectSchema = some sch → mi < sch.length →
      Record.get (inspect_polars_lazyframe name o mi mnl)
        "columns_truncated" = some (.i (sch.length : Int))) ∧
    (∀ (name : String) (o : PyObj) (entries : List (PyObj × PyObj))
      (mi : Nat) (mnl : Option Int) (r : Record),
      o.base.lenB = .val (entries.length : Int) →
      inspect_dict name o entries mi mnl = some r → mi < entries.length →
      Record.get r "keys_truncated" = some (.i (entries.length : Int))) ∧
    (∀ (name : String) (o : PyObj) (mi : Nat) (mnl : Option Int)
      (dvs : List (String × Option String)),
      o.base.dataVarsA = some dvs → mi < dvs.length →
      Record.get (inspect_xarray_dataset name o mi mnl)
        "data_vars_truncated" = some (.i (dvs.length : Int))) ∧
    (∀ (name : String) (o : PyObj) (mi : Nat) (mnl : Option Int)
      (ch : List String),
      o.base.childrenA = some ch → ch ≠ [] → mi < ch.length →
      Record.get (inspect_xarray_datatree name o mi mnl)
        "children_truncated" = some (.i (ch.length : Int))) :=
  ⟨inspect_one_capped,
   fun name o mi mnl nrows cols hsh hcols hgt =>
     ⟨pandas_columns_truncated_get name o mi mnl nrows cols hsh hcols hgt,
      polars_columns_truncated_get name o mi mnl nrows cols hsh hcols hgt⟩,
   lazyframe_columns_truncated_get,
   dict_keys_truncated_get,
   dataset_data_vars_truncated_get,
   datatree_children_truncated_get⟩

/-- C2 witness: with `max_items = 2`, the records of the five-column
pandas frame, lazy frame, Dataset, five-child DataTree and five-key dict
are capped and carry the correct `*_truncated` totals. -/
theorem bounded_fields_capped_and_truncated_witness :
    CappedAt ((inspect_one "df" pdf5 2 (some 60)).getD []) 2 ∧
    Record.get (inspect_pandas_dataframe "df" pdf5 2 (some 60))
      "columns_truncated" = some (.i 5) ∧
    Record.get (inspect_polars_lazyframe "lf" lazy5 2 (some 60))
      "columns_truncated" = some (.i 5) ∧
    Record.get ((inspect_dict "d" dict5 dict5Entries 2 (some 60)).getD [])
      "keys_truncated" = some (.i 5) ∧
    Record.get (inspect_xarray_dataset "ds" ds5 2 (some 60))
      "data_vars_truncated" = some (.i 5) ∧
    Record.get (inspect_xarray_datatree "t" tree5kids 2 (some 60))
      "children_truncated" = some (.i 5) := by
  have h := bounded_fields_capped_and_truncated
  refine ⟨h.1 "df" pdf5 2 (some 60) _ (by decide),
    (h.2.1 "df" pdf5 2 (some 60) 3 ["c0", "c1", "c2", "c3", "c4"]
      (by decide) (by decide) (by decide)).1,
    h.2.2.1 "lf" lazy5 2 (some 60)
      ((List.range 5).map fun i => ("c" ++ toString i, some "Int64"))
      (by decide) (by decide),
    h.2.2.2.1 "d" dict5 dict5Entries 2 (some 60) _ (by decide) (by decide)
      (by decide),
    h.2.2.2.2.1 "ds" ds5 2 (some 60)
      ((List.range 5).map fun i => ("v" ++ toString i, some "float64"))
      (by decide) (by decide),
    h.2.2.2.2.2 "t" tree5kids 2 (some 60) ["n1", "n2", "n3", "n4", "n5"]
      (by decide) (by decide) (by decide)⟩

/-- C8 amended: `_truncate_name` is the identity when `max_len` is `None`
or the name fits the budget; when the name is longer than `max_len` and
`max_len ≥ 3`, the result is the prefix of `max_len - 3` characters
followed by the three-character ellipsis, hence exactly `max_len`
characters in total.  (For `max_len < 3` the slice index is negative and
Python keeps all but the last `3 - max_len` characters instead, as the
counterexample shows.) -/
theorem truncate_name_spec (nm : String) (m : Int) :
    truncate_name nm none = nm ∧
    ((nm.length : Int) ≤ m → truncate_name nm (some m) = nm) ∧
    (3 ≤ m → m < (nm.length : Int) →
      truncate_name nm (some m) = strTake nm (m - 3).toNat ++ "..." ∧
      ((truncate_name nm (some m)).length : Int) = m) := by
  refine ⟨rfl, ?_, ?_⟩
  · intro h
    simp [truncate_name, h]
  · intro h3 hlen
    have hnot : ¬ ((nm.length : Int) ≤ m) := by omega
    have heq : truncate_name nm (some m) = strTake nm (m - 3).toNat ++ "..." := by
      simp only [truncate_name, if_neg hnot, pySliceTo,
        if_pos (by omega : (0 : Int) ≤ m - 3)]
    refine ⟨heq, ?_⟩
    rw [heq, String.length_append, strTake_length]
    have hdots : ("...").length = 3 := by decide
    rw [hdots]
    omega

/-- C8 witness: at `name = "abcdefgh"`, `max_len = 5`, the amended
theorem yields an output of exactly 5 characters. -/
theorem truncate_name_spec_witness :
    ((truncate_name "abcdefgh" (some 5)).length : Int) = 5 :=
  ((truncate_name_spec "abcdefgh" 5).2.2 (by decide) (by decide)).2

/-- C6: for a builtin bulk container whose `len` reports more than 20
items, `_safe_repr` returns exactly the fixed placeholder
`<TypeName with N items>` — and the equation holds for every `reprB`
behaviour of the object, i.e. without consulting its native `repr`.
For every other object (not a bulk container counting above 20) whose
`repr` fails — raises, or returns a non-string, both of which make the
builtin `repr` raise — it returns the `<TypeName>` fallback. -/
theorem safe_repr_placeholder_and_fallback (o : PyObj) (limit : Int) (n : Nat) :
    (isBulkContainer o = true → pyLen o = some n → 20 < n →
      safe_repr o limit =
        "<" ++ type_name o ++ " with " ++ toString n ++ " items>") ∧
    (bulkOver20 o = false → pyRepr o = none →
      safe_repr o limit = "<" ++ type_name o ++ ">") := by
  constructor
  · intro hb hn h20
    simp [safe_repr, hb, hn, h20]
  · intro hb hr
    unfold bulkOver20 at hb
    unfold safe_repr
    cases hbc : isBulkContainer o
    · simp [hbc, hr]
    · rw [hbc] at hb
      simp only [Bool.true_and] at hb
      cases hln : pyLen o
      · simp [hbc, hln, hr]
      · rename_i nv
        rw [hln] at hb
        have h20 : ¬ (nv > 20) := by simpa using hb
        simp [hbc, hln, hr, h20]

/-- C6 witness: a dict of 25 entries gets the placeholder; an object
whose `repr` raises gets the `<TypeName>` fallback. -/
theorem safe_repr_placeholder_and_fallback_witness :
    safe_repr bigDict25 200 = "<dict with 25 items>" ∧
    safe_repr badKey 200 = "<Evil>" := by
  constructor
  · exact ((safe_repr_placeholder_and_fallback bigDict25 200 25).1
      (by decide) (by decide) (by decide)).trans (by decide)
  · exact ((safe_repr_placeholder_and_fallback badKey 200 0).2
      (by decide) (by decide)).trans (by decide)

theorem safe_repr_repr_path (o : PyObj) (limit : Int) (r : String)
    (hb : bulkOver20 o = false) (hr : pyRepr o = some r) :
    safe_repr o limit =
      if (r.length : Int) > limit then pySliceTo r (limit - 3) ++ "..."
      else r := by
  unfold bulkOver20 at hb
  unfold safe_repr
  cases hbc : isBulkContainer o
  · simp [hbc, hr]
  · rw [hbc] at hb
    simp only [Bool.true_and] at hb
    cases hln : pyLen o
    · simp [hbc, hln, hr]
    · rename_i nv
      rw [hln] at hb
      have h20 : ¬ (nv > 20) := by simpa using hb
      simp [hbc, hln, hr, h20]

/-- C3 amended: on the `repr` path — the object is not a bulk container
counting above 20, and its `repr` succeeds — `_safe_repr(obj, limit)`
with `limit ≥ 3` has length at most `limit` (hence at most `limit + 3`),
and when the raw `repr` exceeds `limit` the output is the
`limit - 3`-character prefix plus `"..."`: exactly `limit` characters
ending in the ellipsis.  The placeholder and `<TypeName>` fallback
strings are *not* bounded by the limit (see the counterexample). -/
theorem safe_repr_limit_bound (o : PyObj) (limit : Int) (r : String)
    (h3 : 3 ≤ limit) (hb : bulkOver20 o = false) (hr : pyRepr o = some r) :
    ((safe_repr o limit).length : Int) ≤ limit ∧
    ((r.length : Int) > limit →
      safe_repr o limit = strTake r (limit - 3).toNat ++ "..." ∧
      ((safe_repr o limit).length : Int) = limit) := by
  have he := safe_repr_repr_path o limit r hb hr
  by_cases hlen : (r.length : Int) > limit
  · rw [if_pos hlen] at he
    have heq : safe_repr o limit = strTake r (limit - 3).toNat ++ "..." := by
      rw [he, pySliceTo, if_pos (by omega : (0 : Int) ≤ limit - 3)]
    have hl : ((safe_repr o limit).length : Int) = limit := by
      rw [heq, String.length_append, strTake_length]
      have hdots : ("...").length = 3 := by decide
      rw [hdots]
      omega
    exact ⟨by omega, fun _ => ⟨heq, hl⟩⟩
  · rw [if_neg hlen] at he
    rw [he]
    exact ⟨by omega, fun h => absurd h hlen⟩

/-- C3 witness: an object whose `repr` is a 30-character string, capped
at `limit = 10`, yields exactly 10 characters. -/
theorem safe_repr_limit_bound_witness :
    ((safe_repr reprObj30 10).length : Int) = 10 :=
  ((safe_repr_limit_bound reprObj30 10 (strOfLen 'a' 30) (by decide)
    (by decide) (by decide)).2 (by decide)).2

theorem inspect_pandas_dataframe_keys (name : String) (o : PyObj) (mi : Nat)
    (mnl : Option Int) :
    KeysIn (inspect_pandas_dataframe name o mi mnl)
      ["name", "type", "shape", "columns", "columns_truncated",
       "index_dtype", "index_type", "index_nlevels", "index_names",
       "memory_bytes"] := by
  unfold inspect_pandas_dataframe
  dsimp only
  repeat' split
  all_goals
    repeat' first
      | exact keysIn_nil
      | apply keysIn_append
      | refine keysIn_cons (by decide) ?_

theorem inspect_polars_dataframe_keys (name : String) (o : PyObj) (mi : Nat)
    (mnl : Option Int) :
    KeysIn (inspect_polars_dataframe name o mi mnl)
      ["name", "type", "shape", "columns", "columns_truncated",
       "estimated_size_bytes"] := by
  unfold inspect_polars_dataframe
  dsimp only
  repeat' split
  all_goals
    repeat' first
      | exact keysIn_nil
      | apply keysIn_append
      | refine keysIn_cons (by decide) ?_

/-- C4: a polars LazyFrame input — module root `"polars"`, type name
`"LazyFrame"`, not a scalar — is dispatched to
`_inspect_polars_lazyframe`; on schema failure that returns exactly
`{name, type: "polars.LazyFrame", lazy: true}` with no `columns` key;
every LazyFrame record carries `lazy == true`; and no record of the
eager pandas/polars DataFrame extractors ever contains a `lazy` key. -/
theorem lazyframe_contract (name : String) (o : PyObj) (mi : Nat)
    (mnl : Option Int)
    (hmod : pyStartsWith (moduleOf o) "polars" = true)
    (hcls : type_name o = "LazyFrame")
    (hsc : isScalar o = false) :
    inspect_one name o mi mnl = some (inspect_polars_lazyframe name o mi mnl) ∧
    (o.base.collectSchema = none →
      inspect_polars_lazyframe name o mi mnl =
        [("name", .s name), ("type", .s "polars.LazyFrame"),
         ("lazy", .b true)]) ∧
    Record.get (inspect_polars_lazyframe name o mi mnl) "lazy" =
      some (.b true) ∧
    (∀ nm2 o2 mi2 mnl2, ∀ p ∈ inspect_pandas_dataframe nm2 o2 mi2 mnl2,
      p.1 ≠ "lazy") ∧
    (∀ nm2 o2 mi2 mnl2, ∀ p ∈ inspect_polars_dataframe nm2 o2 mi2 mnl2,
      p.1 ≠ "lazy") := by
  have hpa := polars_not_pandas hmod
  have e1 : (("LazyFrame" : String) == "DataFrame") = false := by decide
  have e2 : (("LazyFrame" : String) == "Series") = false := by decide
  have e3 : (("LazyFrame" : String) == "LazyFrame") = true := by decide
  refine ⟨?_, ?_, ?_, ?_, ?_⟩
  · unfold inspect_one
    simp only [hsc, hpa, hmod, hcls, e1, e2, e3, Bool.false_and,
      Bool.and_false, Bool.true_and, Bool.and_true, if_false, if_true,
      Bool.false_eq_true, if_neg, ite_false, ite_true]
  · intro hn
    unfold inspect_polars_lazyframe
    rw [hn]
  · unfold inspect_polars_lazyframe
    cases hcs : o.base.collectSchema
    · rfl
    · dsimp only
      split
      · rfl
      · rfl
  · intro nm2 o2 mi2 mnl2 p hp
    have hk := inspect_pandas_dataframe_keys nm2 o2 mi2 mnl2 p hp
    simp only [List.mem_cons, List.not_mem_nil, or_false] at hk
    rcases hk with h | h | h | h | h | h | h | h | h | h <;> rw [h] <;> decide
  · intro nm2 o2 mi2 mnl2 p hp
    have hk := inspect_polars_dataframe_keys nm2 o2 mi2 mnl2 p hp
    simp only [List.mem_cons, List.not_mem_nil, or_false] at hk
    rcases hk with h | h | h | h | h | h <;> rw [h] <;> decide

/-- C5 amended: the dispatcher's mapping step tests
`isinstance(obj, dict)` — not the generic mapping capability — so every
dict instance not matched by an earlier dispatch step routes to
`_inspect_dict`, and every record `_inspect_dict` successfully returns
contains the `keys` and `length` fields; a non-dict generic mapping
falls through to the generic extractor instead (see the
counterexample). -/
theorem dict_instances_route_to_mapping_extractor (name : String) (o : PyObj)
    (entries : List (PyObj × PyObj)) (mi : Nat) (mnl : Option Int)
    (hk : o.kind = .dictK entries)
    (hd : dispatchedBeforeDict o = false) :
    inspect_one name o mi mnl = inspect_dict name o entries mi mnl ∧
    (∀ r, inspect_dict name o entries mi mnl = some r →
      (Record.get r "keys").isSome = true ∧
      (Record.get r "length").isSome = true) := by
  constructor
  · unfold dispatchedBeforeDict at hd
    simp only [Bool.or_eq_false_iff] at hd
    obtain ⟨⟨⟨⟨⟨⟨⟨⟨⟨h1, h2⟩, h3⟩, h4⟩, h5⟩, h6⟩, h7⟩, h8⟩, h9⟩, h10⟩ := hd
    unfold inspect_one
    dsimp only
    rw [if_neg (by simp [h1]), if_neg (by simp [h2]), if_neg (by simp [h3]),
      if_neg (by simp [h4]), if_neg (by simp [h5]), if_neg (by simp [h6]),
      if_neg (by simp [h7]), if_neg (by simp [h8]), if_neg (by simp [h9]),
      if_neg (by simp [h10]), hk]
  · intro r hr
    unfold inspect_dict at hr
    dsimp only at hr
    cases hts : traverseOpt (fun k => truncate_name_obj k mnl)
        ((entries.take mi).map Prod.fst)
    · rw [hts] at hr
      simp at hr
    · rw [hts] at hr
      simp only [Option.bind_eq_bind, Option.some_bind, Option.pure_def,
        Option.some.injEq] at hr
      subst hr
      constructor
      · repeat' split
        all_goals rfl
      · repeat' split
        all_goals rfl

/-- C5 witness: the five-entry string-keyed dict is routed to
`_inspect_dict` and its record has `keys` and `length` fields. -/
theorem dict_instances_route_to_mapping_extractor_witness :
    (Record.get ((inspect_one "d" dict5 20 (some 60)).getD []) "keys").isSome
      = true ∧
    (Record.get ((inspect_one "d" dict5 20 (some 60)).getD [])
      "length").isSome = true := by
  have h := dict_instances_route_to_mapping_extractor "d" dict5 dict5Entries
    20 (some 60) rfl (by decide)
  have hsome : inspect_dict "d" dict5 dict5Entries 20 (some 60) =
      some [("name", .s "d"), ("type", .s "dict"), ("length", .i 5),
            ("keys", .strList ["k0", "k1", "k2", "k3", "k4"]),
            ("values_preview", .preview
              [("k0", "int: 0"), ("k1", "int: 1"), ("k2", "int: 2"),
               ("k3", "int: 3"), ("k4", "int: 4")])] := by decide
  rw [h.1, hsome]
  exact h.2 _ hsome

/-- C7: a list/tuple/set/frozenset with the builtin `__len__` (reporting
its true element count), not matched by an earlier dispatch step: when
the length exceeds 20 the record is exactly
`{name, type, length, element_types}` — the type names of the first five
elements — with no `repr` key; when the length is at most 20 it is
`{name, type, length, repr}` with the full capped repr.  The last
conjunct is the spec's `list(range(100))` scenario. -/
theorem sequence_family_record (name : String) (o : PyObj) (st : SeqTy)
    (elems : List PyObj) (mi : Nat) (mnl : Option Int)
    (hk : o.kind = .seqK st elems)
    (hlen : o.base.lenB = .val (elems.length : Int))
    (hd : dispatchedBeforeDict o = false) :
    (20 < elems.length →
      inspect_one name o mi mnl = some
        [("name", .s name), ("type", .s (type_name o)),
         ("length", .i (elems.length : Int)),
         ("element_types", .strList ((elems.take 5).map type_name))]) ∧
    (elems.length ≤ 20 →
      inspect_one name o mi mnl = some
        [("name", .s name), ("type", .s (type_name o)),
         ("length", .i (elems.length : Int)),
         ("repr", .s (safe_repr o 200))]) ∧
    inspect_one "lst" pyList100 20 (some 60) = some
      [("name", .s "lst"), ("type", .s "list"), ("length", .i 100),
       ("element_types", .strList ["int", "int", "int", "int", "int"])] := by
  unfold dispatchedBeforeDict at hd
  simp only [Bool.or_eq_false_iff] at hd
  obtain ⟨⟨⟨⟨⟨⟨⟨⟨⟨h1, h2⟩, h3⟩, h4⟩, h5⟩, h6⟩, h7⟩, h8⟩, h9⟩, h10⟩ := hd
  have hsl : safe_len o = some elems.length := by
    simp [safe_len, pyLen, hlen]
  have hbranch : inspect_one name o mi mnl =
      (match safe_len o with
       | some nv =>
         if nv > 20 then
           (match st with
            | .listTy | .tupleTy => sampleIndexed elems (min 5 nv)
            | .setTy | .frozensetTy =>
              some ((elems.take 5).map type_name)).map
             fun sample =>
               [("name", FieldV.s name), ("type", FieldV.s (type_name o)),
                ("length", optNatF (safe_len o))] ++
               [("element_types", FieldV.strList sample)]
         else some
           ([("name", FieldV.s name), ("type", FieldV.s (type_name o)),
             ("length", optNatF (safe_len o))] ++
            [("repr", FieldV.s (safe_repr o 200))])
       | none => some
           ([("name", FieldV.s name), ("type", FieldV.s (type_name o)),
             ("length", optNatF (safe_len o))] ++
            [("repr", FieldV.s (safe_repr o 200))])) := by
    unfold inspect_one
    dsimp only
    rw [if_neg (by simp [h1]), if_neg (by simp [h2]), if_neg (by simp [h3]),
      if_neg (by simp [h4]), if_neg (by simp [h5]), if_neg (by simp [h6]),
      if_neg (by simp [h7]), if_neg (by simp [h8]), if_neg (by simp [h9]),
      if_neg (by simp [h10]), hk]
  refine ⟨?_, ?_, by decide⟩
  · intro h20
    rw [hbranch, hsl]
    have hmin : min 5 elems.length = 5 := by omega
    have hif : (elems.length > 20) = True := by simp [h20]
    cases st <;>
      simp [sampleIndexed, hmin, hif, optNatF, hsl,
        (by omega : 5 ≤ elems.length)]
  · intro hle
    rw [hbranch, hsl]
    have hif : ¬ (elems.length > 20) := by omega
    simp [hif, optNatF, hsl]

/-- C7 witness: `[1, 2, 3]` keeps the capped repr; `list(range(100))`
gets `element_types` instead. -/
theorem sequence_family_record_witness :
    inspect_one "l3" pyList3 20 (some 60) = some
      [("name", .s "l3"), ("type", .s "list"), ("length", .i 3),
       ("repr", .s "[1, 2, 3]")] ∧
    inspect_one "lst" pyList100 20 (some 60) = some
      [("name", .s "lst"), ("type", .s "list"), ("length", .i 100),
       ("element_types", .strList ["int", "int", "int", "int", "int"])] := by
  have h3 := sequence_family_record "l3" pyList3 .listTy
    [mkInt 1, mkInt 2, mkInt 3] 20 (some 60) rfl (by decide) (by decide)
  refine ⟨(h3.2.1 (by decide)).trans (by decide), h3.2.2⟩

/-- C9: every entry surviving the filter of `list_user_variables`
satisfies all the filter conditions — underscore names only with
`include_private`, not deny-listed, not a module, matching the filter
substring case-insensitively — and the entries, a sublist of the
namespace in iteration order, number at most `max_variables`. -/
theorem list_user_variables_filtering (ns : List (String × PyObj))
    (maxV : Nat) (fN : Option String) (incP : Bool) (vname : String)
    (o : PyObj)
    (hmem : (vname, o) ∈ list_user_variables_entries ns maxV fN incP) :
    (pyStartsWith vname "_" = true → incP = true) ∧
    vname ∉ ALWAYS_SKIP ∧
    o.base.isModule = false ∧
    (∀ f, fN = some f → f ≠ "" →
      strContains (strLower vname) (strLower f) = true) ∧
    (list_user_variables_entries ns maxV fN incP).length ≤ maxV ∧
    List.Sublist (list_user_variables_entries ns maxV fN incP) ns := by
  have hf : (vname, o) ∈ (ns.filter fun p => keepEntry incP fN p.1 p.2) :=
    List.mem_of_mem_take hmem
  have hkeep : keepEntry incP fN vname o = true := (List.mem_filter.mp hf).2
  unfold keepEntry at hkeep
  simp only [Bool.and_eq_true, Bool.not_eq_true'] at hkeep
  obtain ⟨⟨⟨hu, hs⟩, hm⟩, hfil⟩ := hkeep
  refine ⟨?_, ?_, hm, ?_, ?_, ?_⟩
  · intro hus
    rw [hus] at hu
    simpa using hu
  · simpa using hs
  · intro f hf0 hne
    rw [hf0] at hfil
    simp only [Bool.not_eq_true'] at hfil
    rcases Bool.and_eq_false_iff.mp hfil with h | h
    · exact absurd (by simpa using h) hne
    · simpa using h
  · exact List.length_take_le maxV _
  · exact (List.take_sublist maxV _).trans (List.filter_sublist ns)

/-- C9 witness: in the five-binding namespace `ns5` (frame, private
name, module, deny-listed name, int) the surviving entry `count`
satisfies the filter conditions, and the entry list is capped. -/
theorem list_user_variables_filtering_witness :
    "count" ∉ ALWAYS_SKIP ∧ (mkInt 42).base.isModule = false ∧
    (list_user_variables_entries ns5 50 none false).length ≤ 50 := by
  have hmem : ("count", mkInt 42) ∈
      list_user_variables_entries ns5 50 none false := by
    show ("count", mkInt 42) ∈ [("df", pdf5), ("count", mkInt 42)]
    exact List.Mem.tail _ (List.Mem.head _)
  have h := list_user_variables_filtering ns5 50 none false "count"
    (mkInt 42) hmem
  exact ⟨h.2.1, h.2.2.1, h.2.2.2.2.1⟩

/-- C10 amended: a `__len__` returning a negative integer makes the
builtin `len` raise `ValueError`, so `_safe_len` returns `None`; the
generic extractor then omits the `length` field entirely, while the dict
extractor and the list/tuple/set/frozenset branch keep a `length` key
with value `None` (null); and in every record `inspect_one` returns for
such an object, a `length` field, when present, is null — a negative
length is never reported. -/
theorem negative_len_resolution (o : PyObj) (n : Int)
    (hn : o.base.lenB = .val n) (hneg : n < 0) :
    safe_len o = none ∧
    (∀ name, Record.get (inspect_generic name o) "length" = none) ∧
    (∀ name entries mi mnl r, o.kind = .dictK entries →
      inspect_dict name o entries mi mnl = some r →
      Record.get r "length" = some FieldV.null) ∧
    (∀ name mi mnl st elems, o.kind = .seqK st elems →
      dispatchedBeforeDict o = false →
      inspect_one name o mi mnl = some
        [("name", .s name), ("type", .s (type_name o)),
         ("length", FieldV.null), ("repr", .s (safe_repr o 200))]) ∧
    (∀ name mi mnl r, inspect_one name o mi mnl = some r →
      LengthNull r) := by
  have hsl : safe_len o = none := by simp [safe_len, pyLen, hn, hneg]
  refine ⟨hsl, ?_, ?_, ?_, ?_⟩
  · intro name
    unfold inspect_generic
    dsimp only
    rw [hsl]
    dsimp only
    repeat' split
    all_goals rfl
  · intro name entries mi mnl r hk hr
    unfold inspect_dict at hr
    dsimp only at hr
    cases hts : traverseOpt (fun k => truncate_name_obj k mnl)
        ((entries.take mi).map Prod.fst)
    · rw [hts] at hr
      simp at hr
    · rw [hts] at hr
      simp only [Option.bind_eq_bind, Option.some_bind, Option.pure_def,
        Option.some.injEq] at hr
      subst hr
      rw [hsl]
      dsimp only
      repeat' split
      all_goals rfl
  · intro name mi mnl st elems hk hd
    unfold dispatchedBeforeDict at hd
    simp only [Bool.or_eq_false_iff] at hd
    obtain ⟨⟨⟨⟨⟨⟨⟨⟨⟨h1, h2⟩, h3⟩, h4⟩, h5⟩, h6⟩, h7⟩, h8⟩, h9⟩, h10⟩ := hd
    unfold inspect_one
    dsimp only
    rw [if_neg (by simp [h1]), if_neg (by simp [h2]), if_neg (by simp [h3]),
      if_neg (by simp [h4]), if_neg (by simp [h5]), if_neg (by simp [h6]),
      if_neg (by simp [h7]), if_neg (by simp [h8]), if_neg (by simp [h9]),
      if_neg (by simp [h10]), hk]
    dsimp only
    rw [hsl]
    rfl
  · intro name mi mnl r h
    exact inspect_one_length_null o hsl name mi mnl r h

/-- C10 witness: the dict subclass reporting `__len__() == -1` gets
`_safe_len = None` and a null `length` field; the generic extractor
omits `length` for the plain object reporting `-3`; the list subclass
reporting `-2` yields the sequence record with a null `length`. -/
theorem negative_len_resolution_witness :
    safe_len negLenDict = none ∧
    Record.get (inspect_generic "g" negLenPlain) "length" = none ∧
    Record.get ((inspect_dict "d" negLenDict [] 20 (some 60)).getD [])
      "length" = some FieldV.null ∧
    inspect_one "s" negLenList 20 (some 60) = some
      [("name", .s "s"), ("type", .s "NegList"), ("length", FieldV.null),
       ("repr", .s (safe_repr negLenList 200))] := by
  have h1 := negative_len_resolution negLenDict (-1) rfl (by decide)
  have h2 := negative_len_resolution negLenPlain (-3) rfl (by decide)
  have h3 := negative_len_resolution negLenList (-2) rfl (by decide)
  exact ⟨h1.1, h2.2.1 "g",
    h1.2.2.1 "d" [] 20 (some 60) _ rfl (by decide),
    h3.2.2.2.1 "s" 20 (some 60) .listTy [] rfl (by decide)⟩

/-- C4 witness: a LazyFrame whose `collect_schema()` raises produces the
degraded three-field record through `inspect_one`; its record carries
`lazy: true`; an eager five-column pandas DataFrame record has no `lazy`
key. -/
theorem lazyframe_contract_witness :
    inspect_one "lf" lazyFail 20 (some 60) =
      some [("name", .s "lf"), ("type", .s "polars.LazyFrame"),
            ("lazy", .b true)] ∧
    Record.get (inspect_polars_lazyframe "lf2" lazy5 20 (some 60)) "lazy" =
      some (.b true) ∧
    (∀ p ∈ inspect_pandas_dataframe "df" pdf5 20 (some 60), p.1 ≠ "lazy") := by
  have h1 := lazyframe_contract "lf" lazyFail 20 (some 60) (by decide)
    (by decide) (by decide)
  have h2 := lazyframe_contract "lf2" lazy5 20 (some 60) (by decide)
    (by decide) (by decide)
  exact ⟨h1.1.trans (by rw [h1.2.1 (by decide)]),
    h2.2.2.1, fun p hp => h1.2.2.2.1 "df" pdf5 20 (some 60) p hp⟩

end VariableInspector
